import Mathlib

/-!
Verification development for the SecureVibe security core: a shallow
embedding of `utils/secureEncryption.js` (the layered encryption engine)
and of the threat-detection middleware (`detectSuspiciousActivity`,
`userRateLimit`), together with theorems settling the specified
properties.

Modelling conventions:
* JavaScript `Date.now()` timestamps are explicit `Nat` parameters.
* Random values (`crypto.randomBytes` for IVs and master-key entropy)
  are explicit `Nat` parameters; a 32-byte key value is an opaque `Nat`.
* SHA-256 is modelled as a collision-free function of its pre-image:
  a hash value is represented by the data that was hashed.
* AES-GCM and AES-CBC are modelled symbolically: a ciphertext is a
  structure recording the key, associated data and plaintext; decryption
  with a wrong key or wrong associated data fails.  (For CBC, a
  wrong-key decryption in the source either throws a padding error in
  `decipher.final()` or yields bytes that fail the inner GCM
  authentication; both routes end in the same generic error, so the
  model collapses them into failure.)
* base64 encoding is a bijection on buffers and is modelled as the
  identity: `decrypt`'s input is the decoded layout of the buffer.
* `JSON.parse` succeeding is an external-collaborator predicate and is
  passed to `decrypt` as an explicit `jsonOk : String → Bool` argument.
* JavaScript `Map`s are association lists (`List (key × value)`), with
  `set` updating in place and inserting at the end, as JS insertion
  order does.
-/

namespace SecureVibe

/-- Threat level enum, escalated by `detectAttackPattern`. -/
inductive ThreatLevel where
  | LOW
  | MEDIUM
  | HIGH
  | CRITICAL
deriving DecidableEq, Repr

/-- Numeric rank of a threat level, for the escalation order
LOW < MEDIUM < HIGH < CRITICAL. -/
def ThreatLevel.rank : ThreatLevel → Nat
  | .LOW => 0
  | .MEDIUM => 1
  | .HIGH => 2
  | .CRITICAL => 3

/-- The `context` object passed to `encrypt`/`decrypt`:
`{ip, userAgent, body}`, each possibly absent. -/
structure Context where
  ip : Option String := none
  userAgent : Option String := none
  body : Option String := none
deriving DecidableEq, Repr

/-- `context.ip || 'unknown'`. -/
def ctxIp (c : Context) : String := c.ip.getD "unknown"

/-- `context.userAgent || ''`. -/
def ctxUA (c : Context) : String := c.userAgent.getD ""

/-- One entry of `this.securityLog`.  The JS objects pushed by the
various logging sites have different field sets; absent fields are
`none`. -/
structure LogEntry where
  timestamp : Nat
  event : String
  status : Option String := none
  context : Option Context := none
  error : Option String := none
  threatLevel : Option ThreatLevel := none
  ip : Option String := none
  details : Option String := none
deriving DecidableEq, Repr

/-- One suspicious event appended to an attack-pattern record:
`{timestamp, indicators, context}`. -/
structure SuspiciousEvent where
  timestamp : Nat
  indicators : List Bool
  context : Context
deriving DecidableEq, Repr

/-- Per-IP attack pattern record:
`{requestCount, firstRequest, suspiciousPatterns}`. -/
structure AttackRecord where
  requestCount : Nat
  firstRequest : Nat
  suspiciousPatterns : List SuspiciousEvent
deriving DecidableEq, Repr

/-- The mutable state of the `SecureVibeEncryption` singleton.
(`this.sessionKeys` is omitted: the source creates the Map but never
stores anything in it, so it carries no information.) -/
structure EngineState where
  masterKey : Nat
  lastKeyRotation : Nat
  attackPatterns : List (String × AttackRecord)
  securityLog : List LogEntry
  threatLevel : ThreatLevel
deriving DecidableEq, Repr

/-- JS `Map.get` on an association list. -/
def alGet {α : Type} : List (String × α) → String → Option α
  | [], _ => none
  | (k', v) :: rest, k => if k' == k then some v else alGet rest k

/-- JS `Map.set` on an association list: update in place if the key
exists (JS `Map` keeps the original insertion position), append at the
end otherwise. -/
def alSet {α : Type} : List (String × α) → String → α → List (String × α)
  | [], k, v => [(k, v)]
  | (k', v') :: rest, k, v =>
      if k' == k then (k, v) :: rest else (k', v') :: alSet rest k v

@[simp] theorem alGet_alSet_self {α : Type} (m : List (String × α)) (k : String) (v : α) :
    alGet (alSet m k v) k = some v := by
  induction m with
  | nil => simp [alGet, alSet]
  | cons p rest ih =>
      obtain ⟨k', v'⟩ := p
      by_cases h : k' == k
      · simp [alGet, alSet, h]
      · simp only [alSet, h, Bool.false_eq_true, if_false, alGet, ih]

@[simp] theorem alGet_alSet_ne {α : Type} (m : List (String × α)) (k k2 : String) (v : α)
    (h : k2 ≠ k) : alGet (alSet m k v) k2 = alGet m k2 := by
  induction m with
  | nil =>
      have : ¬ (k == k2) = true := by
        simpa using fun hc => h hc.symm
      simp [alSet, alGet, this]
  | cons p rest ih =>
      obtain ⟨k', v'⟩ := p
      by_cases hk : k' == k
      · have hk' : k' = k := by simpa using hk
        subst hk'
        have : ¬ (k' == k2) := by simpa [beq_iff_eq] using fun hc => h hc.symm
        simp [alGet, alSet, this]
      · simp [alGet, alSet, hk, ih]

/-- Case-sensitive substring test, JS `String.prototype.includes`. -/
def containsS (s pat : String) : Bool :=
  decide (pat.toList <:+: s.toList)

/-- `KEY_ROTATION_INTERVAL = 3600000` (1 hour in milliseconds). -/
def KEY_ROTATION_INTERVAL : Nat := 3600000

/-- The bytes of `SECUREVIBE_SIGNATURE = Buffer.from('SECUREVIBE_AUTH_2024')`. -/
def sigBytes : List Nat :=
  [83, 69, 67, 85, 82, 69, 86, 73, 66, 69, 95, 65, 85, 84, 72, 95, 50, 48, 50, 52]

theorem sigBytes_eq_ascii : sigBytes = "SECUREVIBE_AUTH_2024".toList.map Char.toNat := by
  decide

/-- `SECUREVIBE_SIGNATURE[i % SECUREVIBE_SIGNATURE.length]`. -/
def sigByteAt (i : Nat) : Nat := sigBytes.getD (i % sigBytes.length) 0

/-- `securevibeTransform`, byte-exact: starting at index `i`, each byte
becomes `((byte ^ SIG[i % 20]) + round*7 + i*13) & 0xFF`. -/
def securevibeTransform (round : Nat) : Nat → List Nat → List Nat
  | _, [] => []
  | i, b :: rest =>
      (((b ^^^ sigByteAt i) + round * 7 + i * 13) % 256) ::
        securevibeTransform round (i + 1) rest

/-- `reverseSecurevibeTransform`, byte-exact: each byte becomes
`((byte - round*7 - i*13) ^ SIG[i % 20]) & 0xFF`; JS evaluates the
subtraction in two's complement, i.e. modulo 256 on the low byte. -/
def reverseSecurevibeTransform (round : Nat) : Nat → List Nat → List Nat
  | _, [] => []
  | i, t :: rest =>
      ((((t : Int) - (round * 7 + i * 13)) % 256).toNat ^^^ sigByteAt i) ::
        reverseSecurevibeTransform round (i + 1) rest

theorem sigByteAt_lt (i : Nat) : sigByteAt i < 256 := by
  have h : ∀ j < 20, sigBytes.getD j 0 < 256 := by decide
  have hlen : sigBytes.length = 20 := by decide
  unfold sigByteAt
  exact h _ (by rw [hlen]; exact Nat.mod_lt _ (by norm_num))

/-- The byte-level mixing layer really is reversible: the source's
`reverseSecurevibeTransform` undoes `securevibeTransform` on any list of
bytes (values `< 256`). -/
theorem reverse_securevibeTransform (round : Nat) :
    ∀ (i : Nat) (data : List Nat), (∀ b ∈ data, b < 256) →
      reverseSecurevibeTransform round i (securevibeTransform round i data) = data := by
  intro i data
  induction data generalizing i with
  | nil => intro _; rfl
  | cons b rest ih =>
      intro hb
      have hblt : b < 256 := hb b (List.mem_cons_self _ _)
      have hrest : ∀ x ∈ rest, x < 256 := fun x hx => hb x (List.mem_cons_of_mem _ hx)
      have hs : sigByteAt i < 256 := sigByteAt_lt i
      have hx : b ^^^ sigByteAt i < 256 := by
        have h256 : (256 : Nat) = 2 ^ 8 := by norm_num
        rw [h256] at hblt hs ⊢
        exact Nat.xor_lt_two_pow hblt hs
      simp only [securevibeTransform, reverseSecurevibeTransform, ih _ hrest]
      have hbyte :
          ((((((b ^^^ sigByteAt i) + round * 7 + i * 13) % 256 : Nat) : Int) -
              (round * 7 + i * 13)) % 256).toNat = b ^^^ sigByteAt i := by
        omega
      rw [hbyte, Nat.xor_cancel_right]

/-! ## Symbolic cryptography model -/

/-- A SHA-256 value, represented by its pre-image (ideal, collision-free
hash).  In `generateSessionKey` the hashed string is
`JSON.stringify(context) + Date.now().toString()`; since `JSON.stringify`
is injective on our `Context` model and appending the decimal timestamp
to the closing brace of the JSON object is injective in the pair, the
pre-image is recorded as the `(context, time)` pair. -/
structure CtxHash where
  context : Context
  time : Nat
deriving DecidableEq, Repr

/-- A session key: byte-wise `masterKey[i] ^ contextHash[i]`.  For a
fixed master key, XOR with the hash is injective, so the key is
represented by the `(masterKey, contextHash)` pair. -/
structure SessionKey where
  master : Nat
  ctxHash : CtxHash
deriving DecidableEq, Repr

/-- `generateSessionKey(context)`: hash
`JSON.stringify(context) + Date.now().toString()` with SHA-256 and XOR
the digest with the master key.  Note the source folds the *call-time
clock* `Date.now()` into the hashed string. -/
def generateSessionKey (masterKey : Nat) (context : Context) (now : Nat) : SessionKey :=
  ⟨masterKey, ⟨context, now⟩⟩

/-- An AES-256-GCM envelope (the `authTag1 ++ encrypted1` pair produced
by layer 1): authenticated decryption recovers the plaintext only under
the same key and associated data, and fails otherwise. -/
structure GCMBlob where
  key : SessionKey
  aad : String
  plain : String
deriving DecidableEq, Repr

/-- Authenticated GCM decryption. -/
def gcmDecrypt (key : SessionKey) (aad : String) (c : GCMBlob) : Option String :=
  if c.key = key ∧ c.aad = aad then some c.plain else none

/-- `combined1 = Buffer.concat([iv1, authTag1, encrypted1])`: the layer-1
output prefixed by the (unused by `createCipher`) random `iv1`. -/
structure InnerPayload where
  iv1 : Nat
  gcm : GCMBlob
deriving DecidableEq, Repr

/-- The layer-2 output: `securevibeTransform(combined1, round)`.  The
byte-level transform is proven reversible above
(`reverse_securevibeTransform`), so the symbolic layer records the round
index and the payload, and reversal with the same round index restores
the payload. -/
structure MixedPayload where
  round : Nat
  inner : InnerPayload
deriving DecidableEq, Repr

/-- Symbolic `reverseSecurevibeTransform(data, round)`: exact inverse
for the matching round index (justified by
`reverse_securevibeTransform`); a mismatched round would yield bytes
that cannot pass the inner authenticated layer, modelled as failure. -/
def reverseMixed (round : Nat) (m : MixedPayload) : Option InnerPayload :=
  if m.round = round then some m.inner else none

/-- An AES-256-CBC envelope (layer 3, keyed by the master key). -/
structure CBCBlob where
  key : Nat
  iv : Nat
  data : MixedPayload
deriving DecidableEq, Repr

/-- CBC decryption: recovers the data under the same key and IV; a wrong
key or IV yields a padding failure in `decipher.final()` or garbage that
fails the inner authenticated layer — both modelled as failure. -/
def cbcDecrypt (key iv : Nat) (c : CBCBlob) : Option MixedPayload :=
  if c.key = key ∧ c.iv = iv then some c.data else none

/-- The decoded layout of an `encrypt` output (and of any `decrypt`
input): `SECUREVIBE_SIGNATURE ++ iv2 ++ encrypted2 ++ timestamp`,
base64-encoded as a whole.  `leading` is the first
`SECUREVIBE_SIGNATURE.length` decoded bytes (shorter if the input is
shorter); arbitrary non-engine inputs are represented by arbitrary
field values, and `decrypt` inspects the other fields only after the
leading bytes have matched. -/
structure Ciphertext where
  leading : List Nat
  iv2 : Nat
  body : CBCBlob
  stamp : Nat
deriving DecidableEq, Repr

/-! ## Engine operations (`utils/secureEncryption.js`) -/

/-- `generateMasterKey()`: 32 bytes derived from random entropy, the
service secret, the clock and the fixed signature via iterated
SHA-256/`securevibeTransform` mixing.  The derived value is determined
by (and fresh because of) its 48 random bytes; it is modelled as the
opaque fresh value `entropy`. -/
def generateMasterKey (entropy : Nat) : Nat := entropy

/-- The `KEY_ROTATION` audit entry pushed by `checkKeyRotation`. -/
def keyRotationEntry (now : Nat) : LogEntry :=
  { timestamp := now, event := "KEY_ROTATION",
    details := some "Master key rotated successfully" }

/-- `checkKeyRotation()`: if more than `KEY_ROTATION_INTERVAL` has
elapsed since the last rotation, regenerate the master key, clear the
session-key cache and log `KEY_ROTATION`.  `fresh` is the entropy of the
regenerated key. -/
def checkKeyRotation (s : EngineState) (now fresh : Nat) : EngineState :=
  if now - s.lastKeyRotation > KEY_ROTATION_INTERVAL then
    { s with masterKey := generateMasterKey fresh, lastKeyRotation := now,
             securityLog := s.securityLog ++ [keyRotationEntry now] }
  else s

/-- `emergencyKeyRotation()`: unconditional master-key regeneration plus
an `EMERGENCY_KEY_ROTATION` audit entry. -/
def emergencyKeyRotation (s : EngineState) (fresh now : Nat) : EngineState :=
  { s with masterKey := generateMasterKey fresh, lastKeyRotation := now,
           securityLog := s.securityLog ++
             [{ timestamp := now, event := "EMERGENCY_KEY_ROTATION",
                details := some "Manual key rotation performed" }] }

/-- Threat level from the length of `suspiciousPatterns` after a push:
`len > 5 ? 'CRITICAL' : len > 2 ? 'HIGH' : 'MEDIUM'`. -/
def levelOfLen (n : Nat) : ThreatLevel :=
  if 5 < n then .CRITICAL else if 2 < n then .HIGH else .MEDIUM

/-- The second suspicious indicator:
`context.body && (body.includes('union select') || body.includes('<script'))`
(an absent or empty `body` is falsy; an empty string contains neither
pattern, so the falsiness check collapses into the match). -/
def bodyIndicator (c : Context) : Bool :=
  match c.body with
  | none => false
  | some b => containsS b "union select" || containsS b "<script"

/-- `detectAttackPattern(context)`: ensure an `AttackPatternRecord`
exists for the source IP, increment its request count, evaluate the four
suspicious indicators, and if any holds append a suspicious event and
recompute the global threat level.  (The source's create-if-absent
`Map.set` followed by the final `Map.set` of the updated record
collapses into a single `set` of the updated record: on a fresh key both
writes target the same appended slot.) -/
def detectAttackPattern (s : EngineState) (ctx : Context) (now : Nat) :
    Bool × EngineState :=
  let ip := ctxIp ctx
  let userAgent := ctxUA ctx
  let pat := (alGet s.attackPatterns ip).getD
    { requestCount := 0, firstRequest := now, suspiciousPatterns := [] }
  let count := pat.requestCount + 1
  let indicators : List Bool :=
    [ containsS userAgent "sqlmap" || containsS userAgent "nmap",
      bodyIndicator ctx,
      decide (100 < count),
      decide (now - pat.firstRequest < 1000) && decide (10 < count) ]
  if indicators.any id then
    let pat' : AttackRecord :=
      { pat with requestCount := count,
                 suspiciousPatterns :=
                   pat.suspiciousPatterns ++ [⟨now, indicators, ctx⟩] }
    (true,
     { s with attackPatterns := alSet s.attackPatterns ip pat',
              threatLevel := levelOfLen pat'.suspiciousPatterns.length })
  else
    (false,
     { s with attackPatterns :=
         alSet s.attackPatterns ip { pat with requestCount := count } })

/-- `triggerSecurityResponse(context)`: log a `SECURITY_INCIDENT` with
the current threat level and source IP (the honeytrap path — the caller
only ever sees the generic failure). -/
def triggerSecurityResponse (s : EngineState) (ctx : Context) (now : Nat) : EngineState :=
  { s with securityLog := s.securityLog ++
      [{ timestamp := now, event := "SECURITY_INCIDENT",
         ip := some (ctxIp ctx), context := some ctx,
         threatLevel := some s.threatLevel }] }

/-- `detectDecryptionAnomaly(decryptedData, context)`: anomalous iff the
recovered plaintext does not `JSON.parse`. -/
def detectDecryptionAnomaly (jsonOk : String → Bool) (decryptedData : String)
    (_context : Context) : Bool :=
  !(jsonOk decryptedData)

/-- `this.securityLog.slice(-1000)` applied when the log exceeds 1000
entries (only `logEncryptionEvent` does this). -/
def logTrim (l : List LogEntry) : List LogEntry :=
  if 1000 < l.length then l.drop (l.length - 1000) else l

/-- The record pushed by `logEncryptionEvent`. -/
def encryptionEntry (ctx : Context) (now : Nat) (status : String)
    (err : Option String) (lvl : ThreatLevel) : LogEntry :=
  { timestamp := now, event := "ENCRYPTION", status := some status,
    context := some ctx, error := err, threatLevel := some lvl }

/-- `logEncryptionEvent(context, status, error)`: push, then keep only
the last 1000 entries. -/
def logEncryptionEvent (s : EngineState) (ctx : Context) (now : Nat)
    (status : String) (err : Option String) : EngineState :=
  { s with securityLog :=
      logTrim (s.securityLog ++ [encryptionEntry ctx now status err s.threatLevel]) }

/-- The record pushed by `logDecryptionEvent`. -/
def decryptionEntry (ctx : Context) (now : Nat) (status : String)
    (err : Option String) (lvl : ThreatLevel) : LogEntry :=
  { timestamp := now, event := "DECRYPTION", status := some status,
    context := some ctx, error := err, threatLevel := some lvl }

/-- `logDecryptionEvent(context, status, error)`: push, with no cap. -/
def logDecryptionEvent (s : EngineState) (ctx : Context) (now : Nat)
    (status : String) (err : Option String) : EngineState :=
  { s with securityLog :=
      s.securityLog ++ [decryptionEntry ctx now status err s.threatLevel] }

/-- `encrypt(plainText, context)`.  Parameters beyond the source's two
arguments are the clock (`now`) and the consumed randomness: `fresh`
(master-key entropy, used only if the rotation check fires) and the two
random IVs.  The `try/catch` re-raises every internal failure as the
generic `ENCRYPTION_FAILED` after logging the real cause. -/
def encrypt (s : EngineState) (plainText : String) (ctx : Context)
    (now fresh iv1 iv2 : Nat) : Except String Ciphertext × EngineState :=
  let s1 := checkKeyRotation s now fresh
  let sessionKey := generateSessionKey s1.masterKey ctx now
  match detectAttackPattern s1 ctx now with
  | (true, s2) =>
      let s3 := triggerSecurityResponse s2 ctx now
      (Except.error "ENCRYPTION_FAILED",
       logEncryptionEvent s3 ctx now "FAILED" (some "SECURITY_VIOLATION_DETECTED"))
  | (false, s2) =>
      let layer1 : GCMBlob := ⟨sessionKey, "SECUREVIBE_LAYER1", plainText⟩
      let layer2 : MixedPayload := ⟨1, ⟨iv1, layer1⟩⟩
      let layer3 : CBCBlob := ⟨s1.masterKey, iv2, layer2⟩
      (Except.ok ⟨sigBytes, iv2, layer3, now⟩,
       logEncryptionEvent s2 ctx now "SUCCESS" none)

/-- `decrypt(encryptedText, context)`: rotation check, fail-closed
signature check (honeytrap on mismatch), layer 3 → 2 → 1 reversal with a
session key re-derived at call time, integrity anomaly check (honeytrap
on mismatch), logging.  Every internal failure is re-raised as the
generic `DECRYPTION_FAILED` after the real cause is logged; the logged
cause for a low-level cipher failure is the underlying library message,
modelled as `"CRYPTO_ERROR"`. -/
def decrypt (s : EngineState) (input : Ciphertext) (ctx : Context)
    (now fresh : Nat) (jsonOk : String → Bool) : Except String String × EngineState :=
  let s1 := checkKeyRotation s now fresh
  if input.leading ≠ sigBytes then
    let s2 := triggerSecurityResponse s1 ctx now
    (Except.error "DECRYPTION_FAILED",
     logDecryptionEvent s2 ctx now "FAILED" (some "INVALID_SIGNATURE"))
  else
    match cbcDecrypt s1.masterKey input.iv2 input.body with
    | none =>
        (Except.error "DECRYPTION_FAILED",
         logDecryptionEvent s1 ctx now "FAILED" (some "CRYPTO_ERROR"))
    | some layer2 =>
        match reverseMixed 1 layer2 with
        | none =>
            (Except.error "DECRYPTION_FAILED",
             logDecryptionEvent s1 ctx now "FAILED" (some "CRYPTO_ERROR"))
        | some inner =>
            let sessionKey := generateSessionKey s1.masterKey ctx now
            match gcmDecrypt sessionKey "SECUREVIBE_LAYER1" inner.gcm with
            | none =>
                (Except.error "DECRYPTION_FAILED",
                 logDecryptionEvent s1 ctx now "FAILED" (some "CRYPTO_ERROR"))
            | some decrypted =>
                if detectDecryptionAnomaly jsonOk decrypted ctx then
                  let s2 := triggerSecurityResponse s1 ctx now
                  (Except.error "DECRYPTION_FAILED",
                   logDecryptionEvent s2 ctx now "FAILED"
                     (some "DECRYPTION_INTEGRITY_VIOLATION"))
                else
                  (Except.ok decrypted, logDecryptionEvent s1 ctx now "SUCCESS" none)

/-! ## Threat-detection middleware (`middleware/security.js`) -/

/-- Lowercased character list of a string (for the `/i` regex flags). -/
def lowerChars (s : String) : List Char := s.toList.map Char.toLower

/-- Case-insensitive substring test (regexes `/<script/i`, `/eval\(/i`,
`/base64/i` are plain substring matches up to case). -/
def icontainsS (s pat : String) : Bool :=
  decide (lowerChars pat <:+: lowerChars s)

/-- `/union.*select/i` on a character list: some occurrence of `union`
followed (at any distance) by `select`. -/
def unionSelectAux : List Char → Bool
  | [] => false
  | c :: rest =>
      if "union".toList.isPrefixOf (c :: rest) then
        decide ("select".toList <:+: (c :: rest).drop 5) || unionSelectAux rest
      else
        unionSelectAux rest

/-- `/union.*select/i` applied to a string. -/
def unionSelectPat (s : String) : Bool := unionSelectAux (lowerChars s)

/-- A middleware request, reduced to the fields the source reads:
the resolved source identifier `req.ip || req.connection.remoteAddress`,
the user agent, `req.path`, `req.url`, and the strings the signature
regexes are tested against — `JSON.stringify(req.body || {})` and
`JSON.stringify(req.query || {})`. -/
structure MwRequest where
  ip : String
  userAgent : String := ""
  path : String
  url : String := ""
  bodyStr : String := "{}"
  queryStr : String := "{}"
deriving DecidableEq, Repr

/-- The fixed signature list of `detectSuspiciousActivity`:
directory traversal, XSS, SQL injection, code injection, encoded
attacks. -/
def suspiciousPatternList : List (String → Bool) :=
  [ fun s => containsS s "..",
    fun s => icontainsS s "<script",
    unionSelectPat,
    fun s => icontainsS s "eval(",
    fun s => icontainsS s "base64" ]

/-- `suspiciousPatterns.some(p => p.test(url) || p.test(body) || p.test(query))`. -/
def testsSuspicious (r : MwRequest) : Bool :=
  suspiciousPatternList.any fun p => p r.url || p r.bodyStr || p r.queryStr

/-- One `global.requestTracker` entry: `{count, firstRequest}`. -/
structure TrackerEntry where
  count : Nat
  firstRequest : Nat
deriving DecidableEq, Repr

/-- `global.requestTracker`, a `Map` keyed by `` `${ip}-${path}` ``. -/
abbrev TrackerMap := List (String × TrackerEntry)

/-- The per-endpoint window: 1 minute. -/
def MW_WINDOW : Nat := 60000

/-- The per-endpoint limit: 30 requests per window. -/
def MW_LIMIT : Nat := 30

/-- Outcome of a middleware gate: fall through to `next()` (with the
request's `suspiciousActivity` annotation), or reject with an HTTP
status and taxonomized error kind. -/
inductive MwOutcome where
  | next (suspicious : Bool)
  | reject (status : Nat) (kind : String)
deriving DecidableEq, Repr

/-- `detectSuspiciousActivity(req, res, next)`: flag the request if any
signature matches the URL, body or query (annotation only — the match
itself never rejects); then slide the per-`(ip, path)` window counter —
create at 1, reset to 1 after the window elapses, otherwise increment
and reject with `RATE_LIMIT_EXCEEDED` (HTTP 429) once the count exceeds
the limit. -/
def detectSuspiciousActivity (tracker : TrackerMap) (r : MwRequest) (now : Nat) :
    MwOutcome × TrackerMap :=
  let suspicious := testsSuspicious r
  let key := r.ip ++ "-" ++ r.path
  match alGet tracker key with
  | none => (.next suspicious, alSet tracker key ⟨1, now⟩)
  | some data =>
      if now - data.firstRequest > MW_WINDOW then
        (.next suspicious, alSet tracker key ⟨1, now⟩)
      else
        let data' : TrackerEntry := ⟨data.count + 1, data.firstRequest⟩
        if data.count + 1 > MW_LIMIT then
          (.reject 429 "RATE_LIMIT_EXCEEDED", alSet tracker key data')
        else
          (.next suspicious, alSet tracker key data')

/-- Sequential processing of one request template at a list of
timestamps through `detectSuspiciousActivity`. -/
def runSusp (tracker : TrackerMap) (r : MwRequest) : List Nat → List MwOutcome × TrackerMap
  | [] => ([], tracker)
  | t :: ts =>
      let step := detectSuspiciousActivity tracker r t
      let rest := runSusp step.2 r ts
      (step.1 :: rest.1, rest.2)

/-- The whole in-process security store: the encryption engine's state
and the middleware's request tracker.  `detectSuspiciousActivity` lives
in a module with no reference to the engine, so running it through the
combined store leaves the engine component untouched. -/
structure SystemState where
  engine : EngineState
  tracker : TrackerMap
deriving DecidableEq, Repr

/-- `detectSuspiciousActivity` acting on the combined store. -/
def detectSuspiciousActivityS (sys : SystemState) (r : MwRequest) (now : Nat) :
    MwOutcome × SystemState :=
  let step := detectSuspiciousActivity sys.tracker r now
  (step.1, { sys with tracker := step.2 })

/-! ## Per-user rate limiting (`userRateLimit`) -/

/-- The fields of a principal that `userRateLimit` reads. -/
structure Principal where
  id : String
  isPaid : Bool
deriving DecidableEq, Repr

/-- One `global.userRequestTracker` entry:
`{count, firstRequest, limit, windowMs}`. -/
structure UserTrackerEntry where
  count : Nat
  firstRequest : Nat
  limit : Nat
  windowMs : Nat
deriving DecidableEq, Repr

/-- `global.userRequestTracker`, keyed by `` `user_${user._id}` ``. -/
abbrev UserTrackerMap := List (String × UserTrackerEntry)

/-- Outcome of `userRateLimit`: fall through to `next()`, or reject with
an HTTP status and taxonomized error kind. -/
inductive UserRLOutcome where
  | pass
  | reject (status : Nat) (kind : String)
deriving DecidableEq, Repr

/-- `userRateLimit(req, res, next)`.  `lookup` models the
`User.findOne({apiKey})` database call (an external collaborator): it
may throw (`Except.error`), find no principal, or return one.  No API
key, no matching principal, and a thrown lookup all fall through to
`next()` — the `try/catch` ends in `next()` — touching no quota state.
Otherwise the two-tier window counter applies: free 100/15min, paid
1000/15min; overflow rejects with `USAGE_LIMIT_EXCEEDED` (429) for paid
principals and `SUBSCRIPTION_REQUIRED` (402) for free ones. -/
def userRateLimit (lookup : String → Except Unit (Option Principal))
    (tracker : UserTrackerMap) (apiKey : Option String) (now : Nat) :
    UserRLOutcome × UserTrackerMap :=
  match apiKey with
  | none => (.pass, tracker)
  | some k =>
      match lookup k with
      | .error _ => (.pass, tracker)
      | .ok none => (.pass, tracker)
      | .ok (some user) =>
          let userLimit : Nat × Nat :=
            if user.isPaid then (1000, 900000) else (100, 900000)
          let key := "user_" ++ user.id
          match alGet tracker key with
          | none =>
              (.pass, alSet tracker key ⟨1, now, userLimit.1, userLimit.2⟩)
          | some data =>
              if now - data.firstRequest > data.windowMs then
                (.pass, alSet tracker key ⟨1, now, data.limit, data.windowMs⟩)
              else
                let data' : UserTrackerEntry :=
                  { data with count := data.count + 1 }
                if data.count + 1 > data.limit then
                  (if user.isPaid then
                     (.reject 429 "USAGE_LIMIT_EXCEEDED", alSet tracker key data')
                   else
                     (.reject 402 "SUBSCRIPTION_REQUIRED", alSet tracker key data'))
                else
                  (.pass, alSet tracker key data')

/-! ## Shared lemmas about the embedded operations -/

theorem logTrim_length_le (l : List LogEntry) : (logTrim l).length ≤ 1000 := by
  unfold logTrim
  split
  · simp only [List.length_drop]
    omega
  · omega

theorem logTrim_suffix (l : List LogEntry) : logTrim l <:+ l := by
  unfold logTrim
  split
  · exact List.drop_suffix _ _
  · exact List.suffix_rfl

theorem suffix_logTrim (l tail : List LogEntry) (h : tail.length ≤ 1000) :
    tail <:+ logTrim (l ++ tail) := by
  unfold logTrim
  split
  · rename_i hlen
    have hk : (l ++ tail).length - 1000 ≤ l.length := by
      simp only [List.length_append] at hlen ⊢
      omega
    rw [List.drop_append_of_le_length hk]
    exact ⟨l.drop ((l ++ tail).length - 1000), rfl⟩
  · exact ⟨l, rfl⟩

@[simp] theorem checkKeyRotation_threatLevel (s : EngineState) (now fresh : Nat) :
    (checkKeyRotation s now fresh).threatLevel = s.threatLevel := by
  unfold checkKeyRotation; split <;> rfl

@[simp] theorem checkKeyRotation_attackPatterns (s : EngineState) (now fresh : Nat) :
    (checkKeyRotation s now fresh).attackPatterns = s.attackPatterns := by
  unfold checkKeyRotation; split <;> rfl

theorem checkKeyRotation_masterKey (s : EngineState) (now fresh : Nat) :
    (checkKeyRotation s now fresh).masterKey = s.masterKey ∨
      (checkKeyRotation s now fresh).masterKey = fresh := by
  unfold checkKeyRotation; split
  · exact Or.inr rfl
  · exact Or.inl rfl

@[simp] theorem detectAttackPattern_masterKey (s : EngineState) (ctx : Context) (now : Nat) :
    (detectAttackPattern s ctx now).2.masterKey = s.masterKey := by
  unfold detectAttackPattern
  dsimp only
  split <;> rfl

@[simp] theorem detectAttackPattern_lastKeyRotation (s : EngineState) (ctx : Context) (now : Nat) :
    (detectAttackPattern s ctx now).2.lastKeyRotation = s.lastKeyRotation := by
  unfold detectAttackPattern
  dsimp only
  split <;> rfl

@[simp] theorem detectAttackPattern_securityLog (s : EngineState) (ctx : Context) (now : Nat) :
    (detectAttackPattern s ctx now).2.securityLog = s.securityLog := by
  unfold detectAttackPattern
  dsimp only
  split <;> rfl

@[simp] theorem triggerSecurityResponse_masterKey (s : EngineState) (ctx : Context) (now : Nat) :
    (triggerSecurityResponse s ctx now).masterKey = s.masterKey := rfl

@[simp] theorem triggerSecurityResponse_threatLevel (s : EngineState) (ctx : Context) (now : Nat) :
    (triggerSecurityResponse s ctx now).threatLevel = s.threatLevel := rfl

@[simp] theorem logEncryptionEvent_masterKey (s : EngineState) (ctx : Context)
    (now : Nat) (status : String) (err : Option String) :
    (logEncryptionEvent s ctx now status err).masterKey = s.masterKey := rfl

@[simp] theorem logEncryptionEvent_lastKeyRotation (s : EngineState) (ctx : Context)
    (now : Nat) (status : String) (err : Option String) :
    (logEncryptionEvent s ctx now status err).lastKeyRotation = s.lastKeyRotation := rfl

@[simp] theorem logDecryptionEvent_masterKey (s : EngineState) (ctx : Context)
    (now : Nat) (status : String) (err : Option String) :
    (logDecryptionEvent s ctx now status err).masterKey = s.masterKey := rfl

@[simp] theorem emergencyKeyRotation_masterKey (s : EngineState) (fresh now : Nat) :
    (emergencyKeyRotation s fresh now).masterKey = fresh := rfl

/-! ## Concrete fixtures used by witnesses and counterexamples -/

/-- A freshly constructed engine (as after the constructor), with an
opaque master key `5` obtained at time `1000`. -/
def demoState : EngineState :=
  { masterKey := 5, lastKeyRotation := 1000, attackPatterns := [],
    securityLog := [], threatLevel := .LOW }

/-- A benign request context. -/
def demoCtx : Context := { ip := some "1.2.3.4" }

/-- A context whose user agent matches the scanner signature list. -/
def scannerCtx : Context := { ip := some "9.9.9.9", userAgent := some "sqlmap" }

/-- A `JSON.parse` oracle that accepts every string. -/
def jsonTrue : String → Bool := fun _ => true

/-- The ciphertext `encrypt demoState "{}" demoCtx 1000 77 11 12`
produces (checked below). -/
def demoCipher : Ciphertext :=
  ⟨sigBytes, 12, ⟨5, 12, ⟨1, ⟨11, ⟨⟨5, ⟨demoCtx, 1000⟩⟩, "SECUREVIBE_LAYER1", "{}"⟩⟩⟩⟩, 1000⟩

/-! ## C7: the 1000-entry cap on the security event log -/

/-- C7 (counterexample): the cap does not hold after every appending
operation.  On a log already holding 1000 records, `logDecryptionEvent`
appends without trimming and leaves 1001 records; `checkKeyRotation`,
`emergencyKeyRotation` and `triggerSecurityResponse` push the same way. -/
theorem securityLog_exceeds_cap_after_decryption_logging :
    (logDecryptionEvent
        { masterKey := 0, lastKeyRotation := 0, attackPatterns := [],
          securityLog := List.replicate 1000 { timestamp := 0, event := "DECRYPTION" },
          threatLevel := .LOW }
        demoCtx 5 "SUCCESS" none).securityLog.length = 1001 := by
  show (List.replicate 1000 _ ++ [_]).length = 1001
  rw [List.length_append, List.length_replicate]
  rfl

/-- C7 (as amended): encryption-event logging enforces the cap — after
`logEncryptionEvent` the log holds at most 1000 records, and the
surviving records are a suffix of the appended log, i.e. the entries
dropped are the oldest ones. -/
theorem logEncryptionEvent_bounded (s : EngineState) (ctx : Context)
    (now : Nat) (status : String) (err : Option String) :
    (logEncryptionEvent s ctx now status err).securityLog.length ≤ 1000
    ∧ (logEncryptionEvent s ctx now status err).securityLog <:+
        s.securityLog ++ [encryptionEntry ctx now status err s.threatLevel] := by
  constructor
  · exact logTrim_length_le _
  · exact logTrim_suffix _

/-! ## C10: `userRateLimit` is fail-open -/

/-- C10: `userRateLimit` is fail-open: a request with no API key, a
request whose API key matches no principal, and a request during which
the principal lookup throws all pass through to the handler with the
quota state untouched. -/
theorem userRateLimit_fail_open
    (lookup : String → Except Unit (Option Principal)) (tracker : UserTrackerMap)
    (apiKey : Option String) (now : Nat)
    (h : apiKey = none ∨ ∃ k, apiKey = some k ∧
          (lookup k = Except.ok none ∨ lookup k = Except.error ())) :
    userRateLimit lookup tracker apiKey now = (.pass, tracker) := by
  rcases h with h | ⟨k, hk, hl | hl⟩
  · subst h; rfl
  · subst hk; unfold userRateLimit; dsimp only; rw [hl]
  · subst hk; unfold userRateLimit; dsimp only; rw [hl]

theorem userRateLimit_fail_open_witness :
    userRateLimit (fun _ => Except.ok none) [] (some "key-1") 0 = (.pass, []) :=
  userRateLimit_fail_open _ _ _ _ (Or.inr ⟨"key-1", rfl, Or.inl rfl⟩)

/-! ## C2: fail-closed signature check in `decrypt` -/

/-- A `decrypt` input with the given leading bytes and all payload
fields zeroed out; used to state that a rejected input's payload is
never examined. -/
def zeroedPayload (leading : List Nat) : Ciphertext :=
  ⟨leading, 0, ⟨0, 0, ⟨0, ⟨0, ⟨⟨0, ⟨{}, 0⟩⟩, "", ""⟩⟩⟩⟩, 0⟩

/-- C2: on any input whose decoded leading bytes differ from the magic
signature, `decrypt` fails closed: the caller gets the generic error,
the internal log records the `INVALID_SIGNATURE` cause right after the
honeytrap's `SECURITY_INCIDENT` entry, and no decryption stage runs —
the result is the same for every possible payload behind those leading
bytes. -/
theorem decrypt_fail_closed_on_bad_signature
    (s : EngineState) (input : Ciphertext) (ctx : Context) (now fresh : Nat)
    (jsonOk : String → Bool) (h : input.leading ≠ sigBytes) :
    (decrypt s input ctx now fresh jsonOk).1 = Except.error "DECRYPTION_FAILED"
    ∧ [{ timestamp := now, event := "SECURITY_INCIDENT", ip := some (ctxIp ctx),
         context := some ctx, threatLevel := some s.threatLevel },
       decryptionEntry ctx now "FAILED" (some "INVALID_SIGNATURE") s.threatLevel]
        <:+ (decrypt s input ctx now fresh jsonOk).2.securityLog
    ∧ decrypt s input ctx now fresh jsonOk =
        decrypt s (zeroedPayload input.leading) ctx now fresh jsonOk := by
  refine ⟨?_, ?_, ?_⟩
  · unfold decrypt
    rw [if_pos h]
  · unfold decrypt
    rw [if_pos h]
    show _ <:+ (logDecryptionEvent (triggerSecurityResponse (checkKeyRotation s now fresh) ctx now)
        ctx now "FAILED" (some "INVALID_SIGNATURE")).securityLog
    refine ⟨(checkKeyRotation s now fresh).securityLog, ?_⟩
    simp [logDecryptionEvent, triggerSecurityResponse, decryptionEntry]
  · unfold decrypt
    rw [if_pos h, if_pos (show (zeroedPayload input.leading).leading ≠ sigBytes from h)]

theorem decrypt_fail_closed_on_bad_signature_witness :
    (decrypt demoState (zeroedPayload []) demoCtx 5 77 jsonTrue).1 =
      Except.error "DECRYPTION_FAILED" :=
  (decrypt_fail_closed_on_bad_signature demoState (zeroedPayload []) demoCtx 5 77 jsonTrue
    (by decide)).1

/-! ## C5: flagged contexts abort `encrypt` before any plaintext work -/

/-- C5 (counterexample): the error surfaced to the caller for a flagged
context is the generic `ENCRYPTION_FAILED`, not
`SECURITY_VIOLATION_DETECTED` — the `catch` in `encrypt` re-wraps the
violation before it reaches the caller. -/
theorem flagged_encrypt_error_is_generic :
    (encrypt demoState "secret" scannerCtx 1000 77 11 12).1 =
      Except.error "ENCRYPTION_FAILED"
    ∧ (Except.error "ENCRYPTION_FAILED" : Except String Ciphertext) ≠
        Except.error "SECURITY_VIOLATION_DETECTED" := by
  constructor
  · rfl
  · simp

/-- C5 (as amended): for every context flagged by `detectAttackPattern`,
`encrypt` aborts before any cryptographic work on the plaintext (the
outcome is identical for every plaintext), logs the honeytrap
`SECURITY_INCIDENT` followed by an `ENCRYPTION/FAILED` record whose
internal detail is `SECURITY_VIOLATION_DETECTED`, and surfaces the
generic `ENCRYPTION_FAILED` to the caller. -/
theorem flagged_encrypt_aborts
    (s : EngineState) (p : String) (ctx : Context) (now fresh iv1 iv2 : Nat)
    (h : (detectAttackPattern (checkKeyRotation s now fresh) ctx now).1 = true) :
    (encrypt s p ctx now fresh iv1 iv2).1 = Except.error "ENCRYPTION_FAILED"
    ∧ [{ timestamp := now, event := "SECURITY_INCIDENT", ip := some (ctxIp ctx),
         context := some ctx,
         threatLevel := some (detectAttackPattern (checkKeyRotation s now fresh) ctx now).2.threatLevel },
       encryptionEntry ctx now "FAILED" (some "SECURITY_VIOLATION_DETECTED")
         (detectAttackPattern (checkKeyRotation s now fresh) ctx now).2.threatLevel]
        <:+ (encrypt s p ctx now fresh iv1 iv2).2.securityLog
    ∧ encrypt s p ctx now fresh iv1 iv2 = encrypt s "" ctx now fresh iv1 iv2 := by
  rcases hdet : detectAttackPattern (checkKeyRotation s now fresh) ctx now with ⟨b, s2⟩
  rw [hdet] at h
  subst h
  refine ⟨?_, ?_, ?_⟩
  · unfold encrypt
    dsimp only
    rw [hdet]
  · unfold encrypt
    dsimp only
    rw [hdet]
    show _ <:+ (logEncryptionEvent (triggerSecurityResponse s2 ctx now) ctx now "FAILED"
        (some "SECURITY_VIOLATION_DETECTED")).securityLog
    have h2 : (triggerSecurityResponse s2 ctx now).securityLog ++
          [encryptionEntry ctx now "FAILED" (some "SECURITY_VIOLATION_DETECTED")
            (triggerSecurityResponse s2 ctx now).threatLevel] =
        s2.securityLog ++
          [{ timestamp := now, event := "SECURITY_INCIDENT", ip := some (ctxIp ctx),
             context := some ctx, threatLevel := some s2.threatLevel },
           encryptionEntry ctx now "FAILED" (some "SECURITY_VIOLATION_DETECTED")
             s2.threatLevel] := by
      simp [triggerSecurityResponse, List.append_assoc]
    unfold logEncryptionEvent
    rw [h2]
    exact suffix_logTrim _ _ (by simp)
  · unfold encrypt
    dsimp only
    rw [hdet]

theorem flagged_encrypt_aborts_witness :
    (encrypt demoState "x" scannerCtx 1000 77 11 12).1 = Except.error "ENCRYPTION_FAILED" :=
  (flagged_encrypt_aborts demoState "x" scannerCtx 1000 77 11 12 (by decide)).1

/-! ## C1: the round-trip property -/

/-- C1 (the failing input): `encrypt` at clock tick 1000 produces
`demoCipher`, and `decrypt` of that very output with the *same* context
but at clock tick 1001 — no rotation anywhere near — fails.
`generateSessionKey` folds `Date.now()` into the hashed context string,
so the session key re-derived at decrypt time differs from the one used
at encrypt time whenever the clock has advanced, and the layer-1
authenticated decryption rejects. -/
theorem decrypt_after_encrypt_fails_one_tick_later :
    (encrypt demoState "{}" demoCtx 1000 77 11 12).1 = Except.ok demoCipher
    ∧ (decrypt (encrypt demoState "{}" demoCtx 1000 77 11 12).2 demoCipher demoCtx
        1001 88 jsonTrue).1 = Except.error "DECRYPTION_FAILED" :=
  ⟨rfl, rfl⟩

/-- The complement that isolates the bug: the identical `decrypt` call
made at the *same* clock tick as the `encrypt` recovers the plaintext,
so the failure above is precisely the timestamp folded into the session
key, not the layering. -/
theorem decrypt_after_encrypt_same_tick_succeeds :
    (decrypt (encrypt demoState "{}" demoCtx 1000 77 11 12).2 demoCipher demoCtx
        1000 88 jsonTrue).1 = Except.ok "{}" :=
  rfl

/-! ## C3: rotation invalidates previously produced ciphertext -/

theorem checkKeyRotation_masterKey_of_elapsed (s : EngineState) (now fresh : Nat)
    (h : now - s.lastKeyRotation > KEY_ROTATION_INTERVAL) :
    (checkKeyRotation s now fresh).masterKey = fresh := by
  unfold checkKeyRotation
  rw [if_pos h]
  rfl

/-- A successful `encrypt` fully determines its output: the signature
prefix, the layer-3 key (the post-rotation-check master key), and the
session key derived from the call-time context and clock. -/
theorem encrypt_ok_elim (s : EngineState) (p : String) (ctx : Context)
    (t fk i1 i2 : Nat) (c : Ciphertext)
    (henc : (encrypt s p ctx t fk i1 i2).1 = Except.ok c) :
    c = ⟨sigBytes, i2,
          ⟨(checkKeyRotation s t fk).masterKey, i2,
            ⟨1, ⟨i1, ⟨⟨(checkKeyRotation s t fk).masterKey, ⟨ctx, t⟩⟩,
              "SECUREVIBE_LAYER1", p⟩⟩⟩⟩, t⟩
    ∧ (encrypt s p ctx t fk i1 i2).2.masterKey = (checkKeyRotation s t fk).masterKey
    ∧ (encrypt s p ctx t fk i1 i2).2.lastKeyRotation =
        (checkKeyRotation s t fk).lastKeyRotation := by
  unfold encrypt at henc ⊢
  dsimp only at henc ⊢
  rcases hdet : detectAttackPattern (checkKeyRotation s t fk) ctx t with ⟨b, s2⟩
  rw [hdet] at henc
  have hs2 : s2 = (detectAttackPattern (checkKeyRotation s t fk) ctx t).2 := by
    rw [hdet]
  cases b
  · dsimp only at henc ⊢
    simp only [Except.ok.injEq] at henc
    refine ⟨henc.symm, ?_, ?_⟩
    · rw [logEncryptionEvent_masterKey, hs2, detectAttackPattern_masterKey]
    · rw [logEncryptionEvent_lastKeyRotation, hs2, detectAttackPattern_lastKeyRotation]
  · simp at henc

/-- `decrypt` fails whenever the layer-3 key of the input does not match
the master key in force after the call's own rotation check. -/
theorem decrypt_error_of_wrong_master (s : EngineState) (input : Ciphertext)
    (ctx : Context) (now fresh : Nat) (jsonOk : String → Bool)
    (h : input.body.key ≠ (checkKeyRotation s now fresh).masterKey) :
    (decrypt s input ctx now fresh jsonOk).1 = Except.error "DECRYPTION_FAILED" := by
  unfold decrypt
  dsimp only
  by_cases hs : input.leading ≠ sigBytes
  · rw [if_pos hs]
  · rw [if_neg hs]
    have hc : cbcDecrypt (checkKeyRotation s now fresh).masterKey input.iv2 input.body
        = none := by
      unfold cbcDecrypt
      rw [if_neg]
      intro hcontra
      exact h hcontra.1
    rw [hc]

/-- C3: if rotation — emergency or scheduled — occurs between `encrypt`
and a later `decrypt` of its output, that `decrypt` fails with the
decryption-class error (it never returns plaintext).  The freshly
regenerated keys are distinct from the key the ciphertext was produced
under (the fresh 32-byte entropy makes a collision impossible), which
the hypotheses record. -/
theorem rotation_invalidates_ciphertext
    (s : EngineState) (p : String) (ctx ctx2 ctx3 : Context)
    (t1 t2 t3 t4 : Nat) (fk iv1 iv2 k2 fk2 fk3 : Nat) (c : Ciphertext)
    (jsonOk jsonOk2 : String → Bool)
    (henc : (encrypt s p ctx t1 fk iv1 iv2).1 = Except.ok c)
    (hk2 : k2 ≠ c.body.key) (hfk2 : fk2 ≠ c.body.key) (hfk3 : fk3 ≠ c.body.key)
    (hrot : t3 - (encrypt s p ctx t1 fk iv1 iv2).2.lastKeyRotation >
      KEY_ROTATION_INTERVAL) :
    (decrypt (emergencyKeyRotation (encrypt s p ctx t1 fk iv1 iv2).2 k2 t2) c ctx2
        t4 fk2 jsonOk).1 = Except.error "DECRYPTION_FAILED"
    ∧ (decrypt (encrypt s p ctx t1 fk iv1 iv2).2 c ctx3 t3 fk3 jsonOk2).1 =
        Except.error "DECRYPTION_FAILED" := by
  obtain ⟨hc, hmk, hlast⟩ := encrypt_ok_elim s p ctx t1 fk iv1 iv2 c henc
  have hkey : c.body.key = (checkKeyRotation s t1 fk).masterKey := by
    rw [hc]
  constructor
  · apply decrypt_error_of_wrong_master
    rcases checkKeyRotation_masterKey
        (emergencyKeyRotation (encrypt s p ctx t1 fk iv1 iv2).2 k2 t2) t4 fk2 with hm | hm
    · rw [hm, emergencyKeyRotation_masterKey]
      exact fun hcon => hk2 hcon.symm
    · rw [hm]
      exact fun hcon => hfk2 hcon.symm
  · apply decrypt_error_of_wrong_master
    rw [checkKeyRotation_masterKey_of_elapsed _ _ _ hrot]
    exact fun hcon => hfk3 hcon.symm

theorem rotation_invalidates_ciphertext_witness :
    (decrypt (emergencyKeyRotation (encrypt demoState "{}" demoCtx 1000 77 11 12).2 99 2000)
        demoCipher demoCtx 2500 98 jsonTrue).1 = Except.error "DECRYPTION_FAILED" :=
  (rotation_invalidates_ciphertext demoState "{}" demoCtx demoCtx demoCtx
    1000 2000 5000000 2500 77 11 12 99 98 97 demoCipher jsonTrue jsonTrue
    rfl (by decide) (by decide) (by decide) (by decide)).1

/-! ## C8: failing calls surface one indistinguishable generic error -/

theorem encrypt_error_name (s : EngineState) (p : String) (ctx : Context)
    (t fk i1 i2 : Nat) (e : String)
    (h : (encrypt s p ctx t fk i1 i2).1 = Except.error e) :
    e = "ENCRYPTION_FAILED" := by
  unfold encrypt at h
  dsimp only at h
  rcases hdet : detectAttackPattern (checkKeyRotation s t fk) ctx t with ⟨b, s2⟩
  rw [hdet] at h
  cases b
  · simp at h
  · simp only [Except.error.injEq] at h
    exact h.symm

theorem decrypt_error_name (s : EngineState) (input : Ciphertext) (ctx : Context)
    (now fresh : Nat) (jsonOk : String → Bool) (e : String)
    (h : (decrypt s input ctx now fresh jsonOk).1 = Except.error e) :
    e = "DECRYPTION_FAILED" := by
  unfold decrypt at h
  dsimp only at h
  by_cases hs : input.leading ≠ sigBytes
  · rw [if_pos hs] at h
    simp only [Except.error.injEq] at h
    exact h.symm
  · rw [if_neg hs] at h
    rcases hcbc : cbcDecrypt (checkKeyRotation s now fresh).masterKey input.iv2 input.body
      with _ | layer2
    · rw [hcbc] at h
      simp only [Except.error.injEq] at h
      exact h.symm
    · rw [hcbc] at h
      dsimp only at h
      rcases hrev : reverseMixed 1 layer2 with _ | inner
      · rw [hrev] at h
        simp only [Except.error.injEq] at h
        exact h.symm
      · rw [hrev] at h
        dsimp only at h
        rcases hgcm : gcmDecrypt
            (generateSessionKey (checkKeyRotation s now fresh).masterKey ctx now)
            "SECUREVIBE_LAYER1" inner.gcm with _ | plain
        · rw [hgcm] at h
          simp only [Except.error.injEq] at h
          exact h.symm
        · rw [hgcm] at h
          dsimp only at h
          by_cases ha : detectDecryptionAnomaly jsonOk plain ctx = true
          · rw [if_pos ha] at h
            simp only [Except.error.injEq] at h
            exact h.symm
          · rw [if_neg ha] at h
            simp at h

/-- C8: any two failing `encrypt` calls surface the same error kind, and
any two failing `decrypt` calls surface the same error kind — the
honeytrap cause and an internal cryptographic cause are
indistinguishable to the caller, since every failure path re-raises the
one generic constant (`ENCRYPTION_FAILED` / `DECRYPTION_FAILED`) while
the detailed cause goes only to the internal security log. -/
theorem failing_calls_indistinguishable
    (sa sb sc sd : EngineState) (pa pb : String) (ctxa ctxb ctxc ctxd : Context)
    (ta tb tc td fka fkb fkc fkd ia1 ia2 ib1 ib2 : Nat)
    (inc ind : Ciphertext) (ja jb : String → Bool) (e1 e2 e3 e4 : String)
    (h1 : (encrypt sa pa ctxa ta fka ia1 ia2).1 = Except.error e1)
    (h2 : (encrypt sb pb ctxb tb fkb ib1 ib2).1 = Except.error e2)
    (h3 : (decrypt sc inc ctxc tc fkc ja).1 = Except.error e3)
    (h4 : (decrypt sd ind ctxd td fkd jb).1 = Except.error e4) :
    e1 = e2 ∧ e3 = e4 ∧ e1 = "ENCRYPTION_FAILED" ∧ e3 = "DECRYPTION_FAILED" := by
  have a1 := encrypt_error_name _ _ _ _ _ _ _ _ h1
  have a2 := encrypt_error_name _ _ _ _ _ _ _ _ h2
  have a3 := decrypt_error_name _ _ _ _ _ _ _ h3
  have a4 := decrypt_error_name _ _ _ _ _ _ _ h4
  exact ⟨a1.trans a2.symm, a3.trans a4.symm, a1, a3⟩

theorem failing_calls_indistinguishable_witness :
    "ENCRYPTION_FAILED" = "ENCRYPTION_FAILED"
    ∧ "DECRYPTION_FAILED" = "DECRYPTION_FAILED"
    ∧ "ENCRYPTION_FAILED" = "ENCRYPTION_FAILED"
    ∧ "DECRYPTION_FAILED" = "DECRYPTION_FAILED" :=
  failing_calls_indistinguishable demoState demoState demoState
    (encrypt demoState "{}" demoCtx 1000 77 11 12).2 "x" "y" scannerCtx scannerCtx
    demoCtx demoCtx 1000 1000 5 1001 77 77 77 88 11 12 11 12
    (zeroedPayload []) demoCipher jsonTrue jsonTrue
    "ENCRYPTION_FAILED" "ENCRYPTION_FAILED" "DECRYPTION_FAILED" "DECRYPTION_FAILED"
    rfl rfl rfl rfl

/-! ## C4: per-endpoint sliding-window rate limiting -/

/-- The scenario-A request: identifier `203.0.113.5` against
`/api/auth/magic-link`. -/
def reqA : MwRequest := { ip := "203.0.113.5", path := "/api/auth/magic-link" }

theorem runSusp_append (tracker : TrackerMap) (r : MwRequest) (l1 l2 : List Nat) :
    runSusp tracker r (l1 ++ l2) =
      ((runSusp tracker r l1).1 ++ (runSusp (runSusp tracker r l1).2 r l2).1,
       (runSusp (runSusp tracker r l1).2 r l2).2) := by
  induction l1 generalizing tracker with
  | nil => simp [runSusp]
  | cons t ts ih => simp [runSusp, ih]

/-- One in-window request on an existing entry below the limit passes
and increments the count, keeping the window start. -/
theorem detectSuspiciousActivity_step_pass (tracker : TrackerMap) (r : MwRequest)
    (t t1 c : Nat) (h1 : alGet tracker (r.ip ++ "-" ++ r.path) = some ⟨c, t1⟩)
    (hwin : t - t1 ≤ MW_WINDOW) (hcount : c + 1 ≤ MW_LIMIT) :
    detectSuspiciousActivity tracker r t =
      (MwOutcome.next (testsSuspicious r),
       alSet tracker (r.ip ++ "-" ++ r.path) ⟨c + 1, t1⟩) := by
  unfold detectSuspiciousActivity
  dsimp only
  rw [h1]
  dsimp only
  rw [if_neg (by omega : ¬ t - t1 > MW_WINDOW), if_neg (by omega : ¬ c + 1 > MW_LIMIT)]

/-- A run of in-window requests that stays within the limit: every
request passes and the count totals up, with the window start pinned at
the first request. -/
theorem runSusp_within_limit (r : MwRequest) (t1 : Nat) :
    ∀ (ts : List Nat) (tracker : TrackerMap) (c : Nat),
      alGet tracker (r.ip ++ "-" ++ r.path) = some ⟨c, t1⟩ →
      (∀ t ∈ ts, t - t1 ≤ MW_WINDOW) →
      c + ts.length ≤ MW_LIMIT →
      (runSusp tracker r ts).1 =
          List.replicate ts.length (MwOutcome.next (testsSuspicious r))
      ∧ alGet (runSusp tracker r ts).2 (r.ip ++ "-" ++ r.path) =
          some ⟨c + ts.length, t1⟩ := by
  intro ts
  induction ts with
  | nil =>
      intro tracker c h1 _ _
      exact ⟨rfl, by simpa using h1⟩
  | cons t ts ih =>
      intro tracker c h1 h2 h3
      have hwin : t - t1 ≤ MW_WINDOW := h2 t (List.mem_cons_self _ _)
      have hcount : c + 1 ≤ MW_LIMIT := by
        simp only [List.length_cons] at h3
        omega
      have hstep := detectSuspiciousActivity_step_pass tracker r t t1 c h1 hwin hcount
      have hrec := ih (alSet tracker (r.ip ++ "-" ++ r.path) ⟨c + 1, t1⟩) (c + 1)
        (alGet_alSet_self _ _ _) (fun x hx => h2 x (List.mem_cons_of_mem _ hx))
        (by simp only [List.length_cons] at h3; omega)
      show ((detectSuspiciousActivity tracker r t).1 ::
          (runSusp (detectSuspiciousActivity tracker r t).2 r ts).1,
          (runSusp (detectSuspiciousActivity tracker r t).2 r ts).2).1 = _ ∧
        alGet ((detectSuspiciousActivity tracker r t).1 ::
          (runSusp (detectSuspiciousActivity tracker r t).2 r ts).1,
          (runSusp (detectSuspiciousActivity tracker r t).2 r ts).2).2 _ = _
      rw [hstep]
      refine ⟨?_, ?_⟩
      · simp only [List.length_cons, List.replicate_succ]
        exact congrArg _ hrec.1
      · rw [hrec.2]
        exact congrArg some (by simp [Nat.add_comm, Nat.add_assoc, Nat.add_left_comm])

/-- C4: for any `(identifier, path)` pair, starting from a fresh
counter, `MW_LIMIT = 30` requests inside the `MW_WINDOW = 60000` ms
window all pass, the 31st inside the same window is rejected with
`RATE_LIMIT_EXCEEDED` (HTTP 429) while the counter still increments to
31 with the window start unchanged, and the first request after the
window has elapsed passes again with the counter reset to 1 at the new
window start. -/
theorem rate_limit_window_boundary
    (r : MwRequest) (t1 : Nat) (ts : List Nat) (t31 t2 : Nat)
    (hlen : ts.length = 29)
    (hts : ∀ t ∈ ts, t - t1 ≤ MW_WINDOW)
    (h31 : t31 - t1 ≤ MW_WINDOW)
    (h2 : t2 - t1 > MW_WINDOW) :
    (runSusp [] r (t1 :: (ts ++ [t31]))).1 =
      List.replicate 30 (MwOutcome.next (testsSuspicious r)) ++
        [MwOutcome.reject 429 "RATE_LIMIT_EXCEEDED"]
    ∧ alGet (runSusp [] r (t1 :: (ts ++ [t31]))).2 (r.ip ++ "-" ++ r.path) =
        some ⟨31, t1⟩
    ∧ (detectSuspiciousActivity (runSusp [] r (t1 :: (ts ++ [t31]))).2 r t2).1 =
        MwOutcome.next (testsSuspicious r)
    ∧ alGet (detectSuspiciousActivity (runSusp [] r (t1 :: (ts ++ [t31]))).2 r t2).2
        (r.ip ++ "-" ++ r.path) = some ⟨1, t2⟩ := by
  have hstep0 : detectSuspiciousActivity [] r t1 =
      (MwOutcome.next (testsSuspicious r),
       alSet [] (r.ip ++ "-" ++ r.path) ⟨1, t1⟩) := by
    unfold detectSuspiciousActivity
    dsimp only
    rfl
  have hrun : runSusp [] r (t1 :: (ts ++ [t31])) =
      ((detectSuspiciousActivity [] r t1).1 ::
        (runSusp (detectSuspiciousActivity [] r t1).2 r (ts ++ [t31])).1,
       (runSusp (detectSuspiciousActivity [] r t1).2 r (ts ++ [t31])).2) := rfl
  have hmid := runSusp_within_limit r t1 ts (alSet [] (r.ip ++ "-" ++ r.path) ⟨1, t1⟩) 1
    (alGet_alSet_self _ _ _) hts (by rw [hlen]; decide)
  have h30 : 1 + ts.length = 30 := by rw [hlen]
  have hstep31 : detectSuspiciousActivity
      (runSusp (alSet [] (r.ip ++ "-" ++ r.path) ⟨1, t1⟩) r ts).2 r t31 =
      (MwOutcome.reject 429 "RATE_LIMIT_EXCEEDED",
       alSet (runSusp (alSet [] (r.ip ++ "-" ++ r.path) ⟨1, t1⟩) r ts).2
         (r.ip ++ "-" ++ r.path) ⟨31, t1⟩) := by
    unfold detectSuspiciousActivity
    dsimp only
    rw [hmid.2, h30]
    dsimp only
    rw [if_neg (by omega : ¬ t31 - t1 > MW_WINDOW)]
    rw [if_pos (by decide : 30 + 1 > MW_LIMIT)]
  have happ := runSusp_append (alSet [] (r.ip ++ "-" ++ r.path) ⟨1, t1⟩) r ts [t31]
  have htail : runSusp (runSusp (alSet [] (r.ip ++ "-" ++ r.path) ⟨1, t1⟩) r ts).2 r [t31] =
      ([MwOutcome.reject 429 "RATE_LIMIT_EXCEEDED"],
       alSet (runSusp (alSet [] (r.ip ++ "-" ++ r.path) ⟨1, t1⟩) r ts).2
         (r.ip ++ "-" ++ r.path) ⟨31, t1⟩) := by
    show ((detectSuspiciousActivity _ r t31).1 :: (runSusp _ r []).1, _) = _
    rw [hstep31]
    rfl
  have hfull : runSusp [] r (t1 :: (ts ++ [t31])) =
      (MwOutcome.next (testsSuspicious r) ::
        (List.replicate ts.length (MwOutcome.next (testsSuspicious r)) ++
          [MwOutcome.reject 429 "RATE_LIMIT_EXCEEDED"]),
       alSet (runSusp (alSet [] (r.ip ++ "-" ++ r.path) ⟨1, t1⟩) r ts).2
         (r.ip ++ "-" ++ r.path) ⟨31, t1⟩) := by
    rw [hrun, hstep0]
    dsimp only
    rw [happ, htail]
    dsimp only
    rw [hmid.1]
  have hfinal : alGet (runSusp [] r (t1 :: (ts ++ [t31]))).2 (r.ip ++ "-" ++ r.path) =
      some ⟨31, t1⟩ := by
    rw [hfull]
    exact alGet_alSet_self _ _ _
  have hreset : detectSuspiciousActivity (runSusp [] r (t1 :: (ts ++ [t31]))).2 r t2 =
      (MwOutcome.next (testsSuspicious r),
       alSet (runSusp [] r (t1 :: (ts ++ [t31]))).2 (r.ip ++ "-" ++ r.path) ⟨1, t2⟩) := by
    unfold detectSuspiciousActivity
    dsimp only
    rw [hfinal]
    dsimp only
    rw [if_pos (by omega : t2 - t1 > MW_WINDOW)]
  refine ⟨?_, hfinal, ?_, ?_⟩
  · rw [hfull, hlen]
    rfl
  · rw [hreset]
  · rw [hreset]
    exact alGet_alSet_self _ _ _

theorem rate_limit_window_boundary_witness :
    (runSusp [] reqA (0 :: (List.replicate 29 5000 ++ [10000]))).1 =
      List.replicate 30 (MwOutcome.next (testsSuspicious reqA)) ++
        [MwOutcome.reject 429 "RATE_LIMIT_EXCEEDED"] :=
  (rate_limit_window_boundary reqA 0 (List.replicate 29 5000) 10000 61000
    (by decide) (by decide) (by decide) (by decide)).1

/-! ## C6: ceiling crossing and threat-level monotonicity -/

/-- Sequential `detectAttackPattern` calls, collecting the flags. -/
def runDetect (s : EngineState) : List (Context × Nat) → List Bool × EngineState
  | [] => ([], s)
  | (c, t) :: rest =>
      let step := detectAttackPattern s c t
      let r := runDetect step.2 rest
      (step.1 :: r.1, r.2)

/-- The request count stored for a source identifier (0 when no record
exists yet). -/
def recCount (s : EngineState) (ip : String) : Nat :=
  ((alGet s.attackPatterns ip).map AttackRecord.requestCount).getD 0

/-- The number of suspicious events stored for a source identifier. -/
def recSusLen (s : EngineState) (ip : String) : Nat :=
  ((alGet s.attackPatterns ip).map (fun r => r.suspiciousPatterns.length)).getD 0

theorem levelOfLen_rank_mono (n m : Nat) (h : n ≤ m) :
    (levelOfLen n).rank ≤ (levelOfLen m).rank := by
  unfold levelOfLen
  split_ifs <;> simp [ThreatLevel.rank] <;> omega

/-- One call for an identifier already past the 100-request ceiling
returns `true` (the ceiling indicator alone trips the detector), keeps
the count past the ceiling, and appends one suspicious event. -/
theorem detectAttackPattern_step_ceiling (s : EngineState) (ctx : Context)
    (now : Nat) (ip : String) (hip : ctxIp ctx = ip)
    (hc : 100 ≤ recCount s ip) :
    (detectAttackPattern s ctx now).1 = true
    ∧ 100 ≤ recCount (detectAttackPattern s ctx now).2 ip
    ∧ recSusLen (detectAttackPattern s ctx now).2 ip = recSusLen s ip + 1 := by
  unfold recCount at hc
  rcases hget : alGet s.attackPatterns ip with _ | pat
  · rw [hget] at hc
    simp at hc
  · rw [hget] at hc
    simp only [Option.map, Option.getD] at hc
    have h3 : decide (100 < pat.requestCount + 1) = true := by
      simp only [decide_eq_true_eq]
      omega
    unfold detectAttackPattern
    dsimp only
    rw [hip, hget]
    dsimp only [Option.getD_some]
    rw [if_pos (by simp [List.any_cons, h3])]
    refine ⟨rfl, ?_, ?_⟩
    · unfold recCount
      dsimp only
      rw [alGet_alSet_self]
      simp only [Option.map, Option.getD]
      omega
    · unfold recSusLen
      dsimp only
      rw [alGet_alSet_self, hget]
      simp

/-- A single `detectAttackPattern` call never shrinks any identifier's
suspicious-event list. -/
theorem recSusLen_step_le (s : EngineState) (ctx : Context) (now : Nat) (ip : String) :
    recSusLen s ip ≤ recSusLen (detectAttackPattern s ctx now).2 ip := by
  by_cases hip : ctxIp ctx = ip
  · unfold detectAttackPattern
    dsimp only
    rw [hip]
    rcases hget : alGet s.attackPatterns ip with _ | pat
    · split
      · unfold recSusLen
        dsimp only
        rw [hget, alGet_alSet_self]
        simp
      · unfold recSusLen
        dsimp only
        rw [hget, alGet_alSet_self]
        simp
    · split
      · unfold recSusLen
        dsimp only
        rw [hget, alGet_alSet_self]
        simp
      · unfold recSusLen
        dsimp only
        rw [hget, alGet_alSet_self]
        simp
  · unfold detectAttackPattern
    dsimp only
    split
    · unfold recSusLen
      dsimp only
      rw [alGet_alSet_ne _ _ _ _ (fun hc => hip hc.symm)]
    · unfold recSusLen
      dsimp only
      rw [alGet_alSet_ne _ _ _ _ (fun hc => hip hc.symm)]

/-- C6: once a fixed identifier's cumulative request count has crossed
the suspicious-request ceiling, every subsequent `detectAttackPattern`
call for that identifier returns `true` (the record is never reset), and
the threat level derived from the identifier's suspicious-event count is
non-decreasing across the run. -/
theorem attack_ceiling_monotone
    (s : EngineState) (ip : String) (calls : List (Context × Nat))
    (hip : ∀ pc ∈ calls, ctxIp pc.1 = ip)
    (hc : 100 ≤ recCount s ip) :
    (runDetect s calls).1.all id = true
    ∧ (levelOfLen (recSusLen s ip)).rank ≤
        (levelOfLen (recSusLen (runDetect s calls).2 ip)).rank := by
  induction calls generalizing s with
  | nil => exact ⟨rfl, Nat.le_refl _⟩
  | cons pc rest ih =>
      obtain ⟨ctx, t⟩ := pc
      have hipc : ctxIp ctx = ip := hip _ (List.mem_cons_self _ _)
      obtain ⟨hflag, hcount, _⟩ := detectAttackPattern_step_ceiling s ctx t ip hipc hc
      have hrec := ih (detectAttackPattern s ctx t).2
        (fun pc hpc => hip pc (List.mem_cons_of_mem _ hpc)) hcount
      constructor
      · show ((detectAttackPattern s ctx t).1 ::
            (runDetect (detectAttackPattern s ctx t).2 rest).1).all id = true
        rw [hflag]
        simpa using hrec.1
      · refine Nat.le_trans (levelOfLen_rank_mono _ _ (recSusLen_step_le s ctx t ip)) ?_
        exact hrec.2

/-- A state whose record for `9.9.9.9` already sits at the ceiling. -/
def ceilingState : EngineState :=
  { masterKey := 5, lastKeyRotation := 0,
    attackPatterns := [("9.9.9.9", ⟨100, 0, []⟩)],
    securityLog := [], threatLevel := .LOW }

theorem attack_ceiling_monotone_witness :
    (runDetect ceilingState
      [({ ip := some "9.9.9.9" }, 1), ({ ip := some "9.9.9.9" }, 2)]).1.all id = true :=
  (attack_ceiling_monotone ceilingState "9.9.9.9"
    [({ ip := some "9.9.9.9" }, 1), ({ ip := some "9.9.9.9" }, 2)]
    (by decide) (by decide)).1

/-! ## C9: SQL-injection bodies are flagged, but no threat record moves -/

theorem unionSelectAux_append_left (l1 l2 : List Char) (h : unionSelectAux l2 = true) :
    unionSelectAux (l1 ++ l2) = true := by
  induction l1 with
  | nil => simpa using h
  | cons c cs ih =>
      show unionSelectAux (c :: (cs ++ l2)) = true
      unfold unionSelectAux
      split
      · rw [ih]
        exact Bool.or_true _
      · exact ih

theorem unionSelectAux_hit (m b : List Char) :
    unionSelectAux ("union".toList ++ (m ++ ("select".toList ++ b))) = true := by
  show unionSelectAux ('u' :: 'n' :: 'i' :: 'o' :: 'n' :: (m ++ ("select".toList ++ b))) = true
  unfold unionSelectAux
  rw [if_pos]
  · rw [decide_eq_true (show "select".toList <:+:
        ('u' :: 'n' :: 'i' :: 'o' :: 'n' :: (m ++ ("select".toList ++ b))).drop 5 from by
      show "select".toList <:+: m ++ ("select".toList ++ b)
      exact ⟨m, b, by simp⟩)]
    exact Bool.true_or _
  · show "union".toList.isPrefixOf ('u' :: 'n' :: 'i' :: 'o' :: 'n' :: (m ++ ("select".toList ++ b))) = true
    simp [List.isPrefixOf]

/-- A body containing the literal `"' UNION SELECT"` matches the
case-insensitive `/union.*select/i` signature. -/
theorem unionSelectPat_of_contains (s : String)
    (h : containsS s "' UNION SELECT" = true) : unionSelectPat s = true := by
  have hinf : "' UNION SELECT".toList <:+: s.toList := of_decide_eq_true h
  obtain ⟨u, v, huv⟩ := hinf
  unfold unionSelectPat lowerChars
  rw [← huv]
  simp only [List.map_append]
  have hmid : "' UNION SELECT".toList.map Char.toLower =
      ('\'' :: ' ' :: []) ++ ("union".toList ++ ((' ' :: []) ++ ("select".toList ++ []))) := by
    decide
  rw [hmid]
  have hassoc :
      (u.map Char.toLower ++
          (('\'' :: ' ' :: []) ++ ("union".toList ++ ((' ' :: []) ++ ("select".toList ++ []))))) ++
            v.map Char.toLower =
        (u.map Char.toLower ++ ('\'' :: ' ' :: [])) ++
          ("union".toList ++ ((' ' :: []) ++ ("select".toList ++ v.map Char.toLower))) := by
    simp
  rw [hassoc]
  exact unionSelectAux_append_left _ _ (unionSelectAux_hit _ _)

/-- A request whose body contains `"' UNION SELECT"` trips the
middleware signature list. -/
theorem testsSuspicious_of_bodyUnion (r : MwRequest)
    (h : containsS r.bodyStr "' UNION SELECT" = true) : testsSuspicious r = true := by
  have hu := unionSelectPat_of_contains _ h
  simp [testsSuspicious, suspiciousPatternList, hu]

/-- C9 (as amended): a request whose body contains `"' UNION SELECT"`
is flagged by `detectSuspiciousActivity` (annotated, not rejected on the
pattern match) even when it is not rate-limited — but no ThreatLevel
record is updated: the middleware leaves the engine's attack-pattern
table and threat level untouched (those records move only inside the
encryption engine's `detectAttackPattern`). -/
theorem unionSelect_flagged_without_threat_update
    (sys : SystemState) (r : MwRequest) (now : Nat)
    (hbody : containsS r.bodyStr "' UNION SELECT" = true)
    (hnl : match alGet sys.tracker (r.ip ++ "-" ++ r.path) with
           | none => True
           | some d => now - d.firstRequest > MW_WINDOW ∨ d.count + 1 ≤ MW_LIMIT) :
    (detectSuspiciousActivityS sys r now).1 = MwOutcome.next true
    ∧ (detectSuspiciousActivityS sys r now).2.engine = sys.engine := by
  have hsusp := testsSuspicious_of_bodyUnion r hbody
  refine ⟨?_, rfl⟩
  show (detectSuspiciousActivity sys.tracker r now).1 = MwOutcome.next true
  unfold detectSuspiciousActivity
  dsimp only
  rcases hget : alGet sys.tracker (r.ip ++ "-" ++ r.path) with _ | d
  · rw [hsusp]
  · rw [hget] at hnl
    dsimp only
    by_cases hw : now - d.firstRequest > MW_WINDOW
    · rw [if_pos hw, hsusp]
    · rcases hnl with hnl | hnl
      · exact absurd hnl hw
      · rw [if_neg hw, if_neg (by omega : ¬ d.count + 1 > MW_LIMIT), hsusp]

/-- The scenario-C request: a body smuggling `' UNION SELECT`. -/
def unionReq : MwRequest :=
  { ip := "203.0.113.9", path := "/api/q",
    bodyStr := "note=' UNION SELECT password FROM users" }

theorem unionSelect_flagged_without_threat_update_witness :
    (detectSuspiciousActivityS ⟨demoState, []⟩ unionReq 5).1 = MwOutcome.next true :=
  (unionSelect_flagged_without_threat_update ⟨demoState, []⟩ unionReq 5
    (by decide) trivial).1

/-- C9 (counterexample): on a concrete flagged request the ThreatLevel
record is *not* updated — the engine component of the store (the only
place threat-level records live) is exactly what it was, with no record
created for the request's source identifier. -/
theorem unionSelect_no_threat_record_update :
    (detectSuspiciousActivityS ⟨demoState, []⟩ unionReq 7).1 = MwOutcome.next true
    ∧ (detectSuspiciousActivityS ⟨demoState, []⟩ unionReq 7).2.engine = demoState
    ∧ alGet (detectSuspiciousActivityS ⟨demoState, []⟩ unionReq 7).2.engine.attackPatterns
        "203.0.113.9" = none
    ∧ (detectSuspiciousActivityS ⟨demoState, []⟩ unionReq 7).2.engine.threatLevel =
        ThreatLevel.LOW := by
  refine ⟨?_, rfl, rfl, rfl⟩
  decide

end SecureVibe
